import Mathlib

/-!
Verification development for the wm knowledge-state engine (cloud-atlas-ai/wm).

Shallow embedding of the Rust sources:
  - src/main.rs     : entry-point disable check and command dispatch
  - src/extract.rs  : checkpointed transcript ingestion and the generative oracle call
  - src/compile.rs  : working-set compilation and the hook entry point
  - src/state.rs    : knowledge-store paths and state.json read/write
  - src/types.rs    : the aggregate data model and its serde encoding

Modelling conventions:
  - File contents are modelled by their parsed values: a JSON file is a `Json`
    AST value (serde_json pretty-printing followed by parsing is the identity
    at the AST level), the transcript is a byte sequence (`List Nat`, one Nat
    per byte, newline = 10).
  - The oracle (the spawned claude subprocess) is an external collaborator; its
    observable behaviour is an `OracleOutcome` input: the distinct transport
    failure points of the Rust call sites, or an exit with a status and a
    stdout whose JSON parse result is carried as `Option Json`.
  - Environment-variable state is explicit: `Option String` is the value of
    WM_DISABLED (`none` = unset), and functions that mutate it return the
    value it has when they return.
  - Fallible operations return `Except String _` mirroring `Result<_, String>`;
    io failure points that the claims mention are Boolean inputs of the
    environment records.
-/

/-- JSON value, the AST of a serde_json `Value`.  Numbers are carried as
rationals: every finite f64 is a rational and serde_json (via ryu) prints and
reparses finite doubles exactly. -/
inductive Json where
  | null
  | bool (b : Bool)
  | num (q : ℚ)
  | str (s : String)
  | arr (elems : List Json)
  | obj (fields : List (String × Json))

/-- serde_json `Value::get` on an object: field lookup by name (our encoders
emit objects with pairwise distinct keys, so first-match lookup is the map
lookup). -/
def Json.getField (j : Json) (key : String) : Option Json :=
  match j with
  | .obj fields => fields.lookup key
  | _ => none

/-- Whether a JSON value is an object; serde struct deserialization requires
a map and rejects any other shape. -/
def Json.isObj : Json → Bool
  | .obj _ => true
  | _ => false

/-- Observable behaviour of one spawned claude subprocess, indexing the exit
points of `call_generative_extraction` / `compile_with_llm`: each transport
failure the Rust code distinguishes, or an exit carrying `status.success()`
and the stdout (as its JSON parse result, `none` = not valid JSON). -/
inductive OracleOutcome where
  | spawnFailure
  | stdinUnavailable
  | stdinWriteFailure
  | waitFailure
  | exited (success : Bool) (stdout : Option Json)

/-- src/extract.rs and src/compile.rs, `extract_result_field` (the two modules
contain identical copies): parse the response as JSON, then take the "result"
field as a string.  The argument is the parse result of the response text. -/
def extract_result_field (response : Option Json) : Except String String :=
  match response with
  | none => .error "Failed to parse Claude CLI response"
  | some j =>
    match j.getField "result" with
    | some (.str s) => .ok s
    | _ => .error "Claude CLI response missing 'result' field"

/-- Result of one oracle call: the returned `Result` and the value of the
WM_DISABLED environment variable at the moment the function returns. -/
structure OracleCallResult where
  result : Except String String
  wmDisabledAfter : Option String

/-- src/extract.rs `call_generative_extraction`: sets WM_DISABLED to "1",
spawns claude, writes the message, waits, removes WM_DISABLED after a
successful wait, then checks the exit status and extracts the result field.
The early `?` returns (spawn, stdin handle, stdin write, wait) happen before
the `remove_var` call, so they return with the variable still set. -/
def call_generative_extraction (current_state : String) (new_transcript : List Nat)
    (o : OracleOutcome) : OracleCallResult :=
  match o with
  | .spawnFailure => ⟨.error "Failed to spawn claude CLI", some "1"⟩
  | .stdinUnavailable => ⟨.error "Failed to get stdin handle", some "1"⟩
  | .stdinWriteFailure => ⟨.error "Failed to write to stdin", some "1"⟩
  | .waitFailure => ⟨.error "Failed to wait for claude CLI", some "1"⟩
  | .exited success stdout =>
    if success then ⟨extract_result_field stdout, none⟩
    else ⟨.error "Claude CLI failed", none⟩

/-- src/compile.rs `compile_with_llm`: same structure as
`call_generative_extraction` (set WM_DISABLED, spawn, write, wait, remove
after a successful wait, check status, extract the result field); only the
prompts differ, which the outcome model does not depend on. -/
def compile_with_llm (state : String) (intent : Option String)
    (o : OracleOutcome) : OracleCallResult :=
  match o with
  | .spawnFailure => ⟨.error "Failed to spawn claude CLI", some "1"⟩
  | .stdinUnavailable => ⟨.error "Failed to get stdin handle", some "1"⟩
  | .stdinWriteFailure => ⟨.error "Failed to write to stdin", some "1"⟩
  | .waitFailure => ⟨.error "Failed to wait for claude CLI", some "1"⟩
  | .exited success stdout =>
    if success then ⟨extract_result_field stdout, none⟩
    else ⟨.error "Claude CLI failed", none⟩

/-- Whether the modelled oracle call succeeds end to end (wait succeeds, exit
status is success, and the stdout carries a "result" string field). -/
def oracle_call_ok (o : OracleOutcome) : Bool :=
  match o with
  | .exited true stdout =>
    match extract_result_field stdout with
    | .ok _ => true
    | .error _ => false
  | _ => false

/-- src/state.rs `wm_path`: path of a file inside the project's .wm directory. -/
def wm_path (filename : String) : String := ".wm" ++ "/" ++ filename

/-- src/state.rs `write_working_set`: the path it writes.  The function takes
no session identifier; it always targets .wm/working_set.md. -/
def write_working_set_path : String := wm_path "working_set.md"

/-- src/state.rs `read_working_set`: the path it reads.  No session
identifier can be supplied; it always resolves .wm/working_set.md. -/
def read_working_set_path : String := wm_path "working_set.md"

/-- Path written by a hook-compile run invoked with a given session id:
main.rs passes --session_id to the hook entry, but the working-set write goes
through `write_working_set`, which takes no session, so the path is
independent of the identifier. -/
def hook_compile_write_path (_sessionId : String) : String := write_working_set_path

/-- src/main.rs line 73: `std::env::var("WM_DISABLED").is_ok()` — the disable
check tests only that the variable is present, never its value. -/
def wm_disabled_check (wmDisabled : Option String) : Bool := wmDisabled.isSome

/-- Observable outcome of the process entry point: whether the dispatched
command logic ran at all, and whether the process exits successfully. -/
structure MainOutcome where
  ranCommand : Bool
  exitSuccess : Bool
deriving DecidableEq

/-- src/main.rs `main`: if WM_DISABLED is present, return success before
parsing or dispatching anything; otherwise run the command and map its
`Result` to the exit code. -/
def mainEntry (wmDisabled : Option String) (commandResult : Except String Unit) :
    MainOutcome :=
  if wm_disabled_check wmDisabled then ⟨false, true⟩
  else
    match commandResult with
    | .ok _ => ⟨true, true⟩
    | .error _ => ⟨true, false⟩

/-- src/extract.rs `run_background` line 47: the spawned child's environment
sets WM_DISABLED to the empty string (`.env("WM_DISABLED", "")`). -/
def run_background_child_wm_disabled : Option String := some ""

/-- Rust `BufRead::lines` line splitting over bytes: a line terminated by a
newline has a trailing carriage return stripped. -/
def strip_trailing_cr (line : List Nat) : List Nat :=
  if line.getLast? = some 13 then line.dropLast else line

/-- Accumulating worker for `rust_lines`: split on newline bytes; a final
unterminated line is yielded as-is, and a trailing newline yields no extra
empty line. -/
def rust_lines_aux (cur : List Nat) : List Nat → List (List Nat)
  | [] => if cur.isEmpty then [] else [cur]
  | b :: bs =>
    if b = 10 then strip_trailing_cr cur :: rust_lines_aux [] bs
    else rust_lines_aux (cur ++ [b]) bs

/-- Rust `BufRead::lines` over a byte sequence. -/
def rust_lines (bs : List Nat) : List (List Nat) := rust_lines_aux [] bs

/-- The loop body of `read_transcript_since_position`: for each line, push the
line then push a newline byte. -/
def join_lines : List (List Nat) → List Nat
  | [] => []
  | l :: ls => l ++ 10 :: join_lines ls

/-- src/extract.rs `read_transcript_since_position`: seek to the byte offset,
then read every line to end of stream, concatenated with one newline after
each line.  Seeking at or past end of file yields an empty read. -/
def read_transcript_since_position (transcript : List Nat) (position : Nat) : List Nat :=
  join_lines (rust_lines (transcript.drop position))

/-- src/extract.rs `read_checkpoint`: the recorded transcript_position, or 0
when the checkpoint file is absent, unparseable or lacks the field (the file
is modelled by its recorded position, `none` when it yields no position). -/
def read_checkpoint (checkpointFile : Option Nat) : Nat := checkpointFile.getD 0

/-- On-disk project inputs to one extraction run.  The transcript appears
twice because the run samples it twice: its content when
`read_transcript_since_position` reads it, and its content when
`fs::metadata` is taken after the oracle call.  The Boolean fields are the io
failure points of the run. -/
structure ExtractEnv where
  stateMd : String
  checkpointFile : Option Nat
  transcriptReadable : Bool
  transcriptAtRead : List Nat
  transcriptAtCkpt : List Nat
  stateWriteOk : Bool
  metadataOk : Bool
  ckptWriteOk : Bool
  oracle : OracleOutcome

/-- Observable effects of one extraction run: the returned `Result`, whether
the oracle subprocess was spawned, the state.md and checkpoint contents after
the run, and the lines printed to stdout. -/
structure ExtractEffects where
  result : Except String Unit
  oracleInvoked : Bool
  stateAfter : String
  checkpointAfter : Option Nat
  printed : List String

/-- src/extract.rs `extract_from_transcript`: read state.md (empty default),
read the checkpoint, read the new transcript slice; if the slice is empty,
report no new content and stop; otherwise call the oracle, write the new
state, sample the transcript metadata and record its length as the new
checkpoint.  Every `?` failure returns before the writes that follow it. -/
def extract_from_transcript (env : ExtractEnv) : ExtractEffects :=
  let current_state := env.stateMd
  let checkpoint_pos := read_checkpoint env.checkpointFile
  if !env.transcriptReadable then
    ⟨.error "Failed to open transcript", false, env.stateMd, env.checkpointFile, []⟩
  else
    let new_transcript := read_transcript_since_position env.transcriptAtRead checkpoint_pos
    if new_transcript.isEmpty then
      ⟨.ok (), false, env.stateMd, env.checkpointFile,
        ["No new transcript content to extract from."]⟩
    else
      match (call_generative_extraction current_state new_transcript env.oracle).result with
      | .error e => ⟨.error e, true, env.stateMd, env.checkpointFile, []⟩
      | .ok new_state =>
        if !env.stateWriteOk then
          ⟨.error "Failed to write state", true, env.stateMd, env.checkpointFile, []⟩
        else if !env.metadataOk then
          ⟨.error "Failed to get transcript metadata", true, new_state, env.checkpointFile, []⟩
        else if !env.ckptWriteOk then
          ⟨.error "Failed to write checkpoint", true, new_state, env.checkpointFile, []⟩
        else
          ⟨.ok (), true, new_state, some env.transcriptAtCkpt.length,
            ["State updated"]⟩

/-- Inputs of the hook-triggered extraction entry point: project
initialization, whether `find_transcript(None)` resolves a transcript, and
the extraction inputs proper. -/
structure HookExtractEnv where
  initialized : Bool
  transcriptFound : Bool
  extractEnv : ExtractEnv

/-- src/extract.rs `run_hook`: silent success when the project is not
initialized; otherwise find the transcript (propagating failure with `?`) and
run `extract_from_transcript`, propagating its result. -/
def run_hook_extract (env : HookExtractEnv) : ExtractEffects :=
  if !env.initialized then
    ⟨.ok (), false, env.extractEnv.stateMd, env.extractEnv.checkpointFile, []⟩
  else if !env.transcriptFound then
    ⟨.error "Could not find transcript. Use --transcript <path> to specify.", false,
      env.extractEnv.stateMd, env.extractEnv.checkpointFile, []⟩
  else extract_from_transcript env.extractEnv

/-- Rust `char::is_whitespace` restricted to the ASCII whitespace characters
(space, tab, newline, carriage return). -/
def is_rust_whitespace (c : Char) : Bool :=
  c == ' ' || c == '\t' || c == '\n' || c == '\r'

/-- Rust `str::trim`: strip leading and trailing whitespace. -/
def rust_trim (s : String) : String :=
  ⟨((s.data.dropWhile is_rust_whitespace).reverse.dropWhile is_rust_whitespace).reverse⟩

/-- src/types.rs `HookResponse`: the structured hook reply; serde omits the
additionalContext field when it is `none` (skip_serializing_if). -/
structure HookResponse where
  additional_context : Option String
deriving DecidableEq

/-- Inputs of the hook-triggered compile entry point.  `intent` is the value
`read_hook_intent` returns (the parsed "prompt" field, the raw stdin text, or
`none` on empty/unreadable input); the response shape the claims are about
does not depend on how it was obtained. -/
structure HookCompileEnv where
  initialized : Bool
  intent : Option String
  stateMd : String
  oracle : OracleOutcome

/-- Observable effects of one hook-compile run: each `println!` of a
serialized `HookResponse` is one stdout line (serde_json `to_string` output
contains no raw newline), the returned `Result`, and the working-set write. -/
structure HookCompileEffects where
  stdoutResponses : List HookResponse
  result : Except String Unit
  workingSetWritten : Option String

/-- src/compile.rs `run_hook`: silent success (no output) when the project is
not initialized; empty response when state.md is empty; otherwise call the
oracle, degrade any failure to an empty working set, write it (ignoring write
errors), and print one response whose context is omitted when the working set
trims to empty. -/
def run_hook_compile (env : HookCompileEnv) : HookCompileEffects :=
  if !env.initialized then ⟨[], .ok (), none⟩
  else
    let state := env.stateMd
    if (rust_trim state).isEmpty then ⟨[⟨none⟩], .ok (), none⟩
    else
      let working_set :=
        match (compile_with_llm state env.intent env.oracle).result with
        | .ok ws => ws
        | .error _ => ""
      let response : HookResponse :=
        ⟨if (rust_trim working_set).isEmpty then none else some working_set⟩
      ⟨[response], .ok (), some working_set⟩

/-- src/types.rs `ItemType` (serde rename_all = snake_case). -/
inductive ItemType where
  | decision
  | constraint
  | preference
  | pattern
  | fact
  | definition
deriving DecidableEq

/-- Serialized form of an `ItemType` variant. -/
def ItemType.toStr : ItemType → String
  | .decision => "decision"
  | .constraint => "constraint"
  | .preference => "preference"
  | .pattern => "pattern"
  | .fact => "fact"
  | .definition => "definition"

/-- Deserialization of an `ItemType` variant name. -/
def ItemType.fromStr (s : String) : Option ItemType :=
  if s = "decision" then some .decision
  else if s = "constraint" then some .constraint
  else if s = "preference" then some .preference
  else if s = "pattern" then some .pattern
  else if s = "fact" then some .fact
  else if s = "definition" then some .definition
  else none

/-- src/types.rs `ItemStatus` (serde rename_all = snake_case). -/
inductive ItemStatus where
  | confirmed
  | grounded
  | repeated
  | inferred
  | tentative
  | deprecated
deriving DecidableEq

/-- Serialized form of an `ItemStatus` variant. -/
def ItemStatus.toStr : ItemStatus → String
  | .confirmed => "confirmed"
  | .grounded => "grounded"
  | .repeated => "repeated"
  | .inferred => "inferred"
  | .tentative => "tentative"
  | .deprecated => "deprecated"

/-- Deserialization of an `ItemStatus` variant name. -/
def ItemStatus.fromStr (s : String) : Option ItemStatus :=
  if s = "confirmed" then some .confirmed
  else if s = "grounded" then some .grounded
  else if s = "repeated" then some .repeated
  else if s = "inferred" then some .inferred
  else if s = "tentative" then some .tentative
  else if s = "deprecated" then some .deprecated
  else none

/-- Rust f64, as serde_json treats it: a finite double is a rational (ryu
printing and reparsing of finite doubles is exact), and NaN and the two
infinities all serialize as JSON null, which f64 deserialization rejects. -/
inductive F64 where
  | finite (q : ℚ)
  | nonfinite
deriving DecidableEq

/-- Whether an `F64` is finite. -/
def F64.isFinite : F64 → Bool
  | .finite _ => true
  | .nonfinite => false

/-- chrono `DateTime<Utc>` is modelled by its serialized RFC3339 string form:
chrono's serde codec is injective with an exact reparse, so the string is a
faithful carrier for round-trip statements. -/
abbrev DateTimeUtc := String

/-- src/types.rs `Edges`: six edge lists, each `#[serde(default,
skip_serializing_if = "Vec::is_empty")]`. -/
structure Edges where
  applies_to : List String
  uses : List String
  grounded_in : List String
  supersedes : List String
  conflicts_with : List String
  derived_from : List String
deriving DecidableEq

/-- `Edges::default()`: all six lists empty. -/
def Edges.default : Edges := ⟨[], [], [], [], [], []⟩

/-- src/types.rs `Provenance`: optional session id and turn (both skipped
when none), required timestamp.  `turn` is a u32. -/
structure Provenance where
  session_id : Option String
  turn : Option Nat
  timestamp : DateTimeUtc
deriving DecidableEq

/-- src/types.rs `Item`.  `item_type` is serialized under the key "type"
(serde rename); `edges`, `strength` and `pinned` carry `#[serde(default)]`
(and are always serialized); `rationale` and `last_used_at` are skipped when
none. -/
structure Item where
  id : String
  item_type : ItemType
  status : ItemStatus
  text : String
  rationale : Option String
  edges : Edges
  provenance : Provenance
  strength : F64
  pinned : Bool
  created_at : DateTimeUtc
  last_used_at : Option DateTimeUtc
deriving DecidableEq

/-- src/types.rs `Conflict`: all three fields required. -/
structure Conflict where
  items : List String
  reason : String
  surfaced_at : DateTimeUtc
deriving DecidableEq

/-- src/types.rs `Checkpoint`: both fields optional and skipped when none.
`transcript_position` is a u64. -/
structure Checkpoint where
  last_extraction : Option DateTimeUtc
  transcript_position : Option Nat
deriving DecidableEq

/-- src/types.rs `State`: the aggregate.  `checkpoint`, `items` and
`conflicts` carry `#[serde(default)]` (and are always serialized). -/
structure State where
  schema_version : String
  project_id : String
  updated_at : DateTimeUtc
  checkpoint : Checkpoint
  items : List Item
  conflicts : List Conflict
deriving DecidableEq

/-- src/types.rs `State::default()`: schema 0.1, empty project id, the
current time, empty checkpoint, no items, no conflicts. -/
def State.defaultAt (now : DateTimeUtc) : State :=
  ⟨"0.1", "", now, ⟨none, none⟩, [], []⟩

/-- A field that serde omits when the value is absent. -/
def opt_field (name : String) (v : Option Json) : List (String × Json) :=
  match v with
  | none => []
  | some j => [(name, j)]

/-- One `Edges` field: omitted when the list is empty (skip_serializing_if). -/
def edge_field (name : String) (l : List String) : List (String × Json) :=
  opt_field name (if l.isEmpty then none else some (.arr (l.map Json.str)))

/-- Serialization of a `Vec<String>`. -/
def encode_str_list (l : List String) : Json := .arr (l.map Json.str)

/-- Serialization of an unsigned integer (u32/u64) as a JSON number. -/
def encode_nat (n : Nat) : Json := .num (n : ℚ)

/-- Serialization of an f64: finite value as a number, NaN and infinities as
null (serde_json). -/
def encode_f64 : F64 → Json
  | .finite q => .num q
  | .nonfinite => .null

/-- Deserialization of a required f64: only a JSON number is accepted; in
particular null (the serialized form of a non-finite double) is an error. -/
def decode_f64 : Json → Option F64
  | .num q => some (.finite q)
  | _ => none

/-- Deserialization of a required string field. -/
def decode_str : Option Json → Option String
  | some (.str s) => some s
  | _ => none

/-- serde `Option<String>`: a missing field or null is none, a string is
some, anything else is an error. -/
def decode_opt_str : Option Json → Option (Option String)
  | none => some none
  | some .null => some none
  | some (.str s) => some (some s)
  | some _ => none

/-- Deserialization of an unsigned integer bounded by `bound` (u32/u64): the
number must be a nonnegative integer in range. -/
def decode_uint (bound : Nat) : Json → Option Nat
  | .num q => if q.den = 1 ∧ 0 ≤ q.num ∧ q.num < bound then some q.num.toNat else none
  | _ => none

/-- serde `Option<u32>`: missing or null is none, an in-range integer is
some. -/
def decode_opt_u32 : Option Json → Option (Option Nat)
  | none => some none
  | some .null => some none
  | some j => (decode_uint (2 ^ 32) j).map some

/-- serde `Option<u64>`: missing or null is none, an in-range integer is
some. -/
def decode_opt_u64 : Option Json → Option (Option Nat)
  | none => some none
  | some .null => some none
  | some j => (decode_uint (2 ^ 64) j).map some

/-- Deserialization of a `Vec<String>` value. -/
def decode_str_list (j : Json) : Option (List String) :=
  match j with
  | .arr elems =>
    elems.mapM fun e =>
      match e with
      | Json.str s => some s
      | _ => none
  | _ => none

/-- A `Vec<String>` field with `#[serde(default)]`: missing means empty. -/
def decode_str_list_default : Option Json → Option (List String)
  | none => some []
  | some j => decode_str_list j

/-- A bool field with `#[serde(default)]`: missing means false. -/
def decode_bool_default : Option Json → Option Bool
  | none => some false
  | some (.bool b) => some b
  | some _ => none

/-- An f64 field with `#[serde(default)]`: missing means 0.0. -/
def decode_f64_default : Option Json → Option F64
  | none => some (.finite 0)
  | some j => decode_f64 j

/-- Serialization of `Edges` (fields in declaration order, empty lists
omitted). -/
def encode_edges (e : Edges) : Json :=
  .obj (edge_field "applies_to" e.applies_to ++ edge_field "uses" e.uses ++
    edge_field "grounded_in" e.grounded_in ++ edge_field "supersedes" e.supersedes ++
    edge_field "conflicts_with" e.conflicts_with ++ edge_field "derived_from" e.derived_from)

/-- Deserialization of `Edges`: a JSON object, every field defaulting to the
empty list when missing. -/
def decode_edges (j : Json) : Option Edges :=
  if j.isObj then do
    let applies_to ← decode_str_list_default (j.getField "applies_to")
    let uses ← decode_str_list_default (j.getField "uses")
    let grounded_in ← decode_str_list_default (j.getField "grounded_in")
    let supersedes ← decode_str_list_default (j.getField "supersedes")
    let conflicts_with ← decode_str_list_default (j.getField "conflicts_with")
    let derived_from ← decode_str_list_default (j.getField "derived_from")
    some ⟨applies_to, uses, grounded_in, supersedes, conflicts_with, derived_from⟩
  else none

/-- An `Edges` field with `#[serde(default)]` (as in `Item`): missing means
`Edges::default()`. -/
def decode_edges_default : Option Json → Option Edges
  | none => some Edges.default
  | some j => decode_edges j

/-- Serialization of `Provenance`. -/
def encode_provenance (p : Provenance) : Json :=
  .obj (opt_field "session_id" (p.session_id.map Json.str) ++
    opt_field "turn" (p.turn.map encode_nat) ++
    [("timestamp", Json.str p.timestamp)])

/-- Deserialization of `Provenance`. -/
def decode_provenance (j : Json) : Option Provenance :=
  if j.isObj then do
    let session_id ← decode_opt_str (j.getField "session_id")
    let turn ← decode_opt_u32 (j.getField "turn")
    let timestamp ← decode_str (j.getField "timestamp")
    some ⟨session_id, turn, timestamp⟩
  else none

/-- Serialization of an `Item` (fields in declaration order; `item_type`
under the key "type"). -/
def encode_item (i : Item) : Json :=
  .obj ([("id", Json.str i.id), ("type", Json.str i.item_type.toStr),
    ("status", Json.str i.status.toStr), ("text", Json.str i.text)] ++
    opt_field "rationale" (i.rationale.map Json.str) ++
    [("edges", encode_edges i.edges), ("provenance", encode_provenance i.provenance),
     ("strength", encode_f64 i.strength), ("pinned", Json.bool i.pinned),
     ("created_at", Json.str i.created_at)] ++
    opt_field "last_used_at" (i.last_used_at.map Json.str))

/-- Deserialization of an `Item`. -/
def decode_item (j : Json) : Option Item :=
  if j.isObj then do
    let id ← decode_str (j.getField "id")
    let tyName ← decode_str (j.getField "type")
    let item_type ← ItemType.fromStr tyName
    let stName ← decode_str (j.getField "status")
    let status ← ItemStatus.fromStr stName
    let text ← decode_str (j.getField "text")
    let rationale ← decode_opt_str (j.getField "rationale")
    let edges ← decode_edges_default (j.getField "edges")
    let provenance ← (j.getField "provenance").bind decode_provenance
    let strength ← decode_f64_default (j.getField "strength")
    let pinned ← decode_bool_default (j.getField "pinned")
    let created_at ← decode_str (j.getField "created_at")
    let last_used_at ← decode_opt_str (j.getField "last_used_at")
    some ⟨id, item_type, status, text, rationale, edges, provenance, strength,
      pinned, created_at, last_used_at⟩
  else none

/-- Serialization of a `Conflict`. -/
def encode_conflict (c : Conflict) : Json :=
  .obj [("items", encode_str_list c.items), ("reason", Json.str c.reason),
    ("surfaced_at", Json.str c.surfaced_at)]

/-- Deserialization of a `Conflict` (all fields required). -/
def decode_conflict (j : Json) : Option Conflict :=
  if j.isObj then do
    let items ← (j.getField "items").bind decode_str_list
    let reason ← decode_str (j.getField "reason")
    let surfaced_at ← decode_str (j.getField "surfaced_at")
    some ⟨items, reason, surfaced_at⟩
  else none

/-- Serialization of a `Checkpoint` (both fields skipped when none). -/
def encode_checkpoint (c : Checkpoint) : Json :=
  .obj (opt_field "last_extraction" (c.last_extraction.map Json.str) ++
    opt_field "transcript_position" (c.transcript_position.map encode_nat))

/-- Deserialization of a `Checkpoint`. -/
def decode_checkpoint (j : Json) : Option Checkpoint :=
  if j.isObj then do
    let last_extraction ← decode_opt_str (j.getField "last_extraction")
    let transcript_position ← decode_opt_u64 (j.getField "transcript_position")
    some ⟨last_extraction, transcript_position⟩
  else none

/-- A `Checkpoint` field with `#[serde(default)]` (as in `State`). -/
def decode_checkpoint_default : Option Json → Option Checkpoint
  | none => some ⟨none, none⟩
  | some j => decode_checkpoint j

/-- A `Vec<Item>` field with `#[serde(default)]`. -/
def decode_items_default : Option Json → Option (List Item)
  | none => some []
  | some (.arr elems) => elems.mapM decode_item
  | some _ => none

/-- A `Vec<Conflict>` field with `#[serde(default)]`. -/
def decode_conflicts_default : Option Json → Option (List Conflict)
  | none => some []
  | some (.arr elems) => elems.mapM decode_conflict
  | some _ => none

/-- Serialization of the aggregate `State` (fields in declaration order). -/
def encode_state (s : State) : Json :=
  .obj [("schema_version", Json.str s.schema_version), ("project_id", Json.str s.project_id),
    ("updated_at", Json.str s.updated_at), ("checkpoint", encode_checkpoint s.checkpoint),
    ("items", Json.arr (s.items.map encode_item)),
    ("conflicts", Json.arr (s.conflicts.map encode_conflict))]

/-- Deserialization of the aggregate `State`. -/
def decode_state (j : Json) : Option State :=
  if j.isObj then do
    let schema_version ← decode_str (j.getField "schema_version")
    let project_id ← decode_str (j.getField "project_id")
    let updated_at ← decode_str (j.getField "updated_at")
    let checkpoint ← decode_checkpoint_default (j.getField "checkpoint")
    let items ← decode_items_default (j.getField "items")
    let conflicts ← decode_conflicts_default (j.getField "conflicts")
    some ⟨schema_version, project_id, updated_at, checkpoint, items, conflicts⟩
  else none

/-- src/state.rs `write_state`: serialize the aggregate (pretty-print, temp
file, atomic rename — the canonical path ends up holding exactly the
serialized document, modelled at the AST level). -/
def write_state (s : State) : Json := encode_state s

/-- src/state.rs `read_state`: an absent file is the default aggregate (with
the current time), a present file is parsed, a parse failure is an error
(`none`). -/
def read_state (now : DateTimeUtc) (file : Option Json) : Option State :=
  match file with
  | none => some (State.defaultAt now)
  | some j => decode_state j

/-- Rust type invariant carried by a model `State`: u32/u64 fields in range. -/
def State.wfb (s : State) : Bool :=
  s.items.all (fun i => i.provenance.turn.all fun n => n < 2 ^ 32) &&
    s.checkpoint.transcript_position.all (fun n => n < 2 ^ 64)

/-- Whether every item strength in the aggregate is a finite double. -/
def State.strengthsFinite (s : State) : Bool :=
  s.items.all fun i => i.strength.isFinite

/-! Helper lemmas about the transcript window reader. -/

theorem rust_lines_aux_ne_nil (bs : List Nat) : ∀ cur b, rust_lines_aux cur (b :: bs) ≠ [] := by
  induction bs with
  | nil =>
    intro cur b
    by_cases hb : b = 10 <;> simp [rust_lines_aux, hb]
  | cons b2 bs ih =>
    intro cur b
    by_cases hb : b = 10
    · simp [rust_lines_aux, hb]
    · simpa [rust_lines_aux, hb] using ih (cur ++ [b]) b2

theorem join_lines_ne_nil (l : List Nat) (ls : List (List Nat)) :
    join_lines (l :: ls) ≠ [] := by
  simp [join_lines]

/-- The new transcript slice is empty exactly when the checkpoint offset is at
or past the transcript's end. -/
theorem read_since_eq_nil_iff (bs : List Nat) (pos : Nat) :
    read_transcript_since_position bs pos = [] ↔ bs.length ≤ pos := by
  unfold read_transcript_since_position rust_lines
  constructor
  · intro h
    by_contra hlt
    push_neg at hlt
    have hd : bs.drop pos ≠ [] := by
      simp only [ne_eq, List.drop_eq_nil_iff]
      omega
    obtain ⟨b, rest, hbr⟩ := List.exists_cons_of_ne_nil hd
    rw [hbr] at h
    rcases hln : rust_lines_aux [] (b :: rest) with _ | ⟨l, ls⟩
    · exact rust_lines_aux_ne_nil rest [] b hln
    · rw [hln] at h
      exact join_lines_ne_nil l ls h
  · intro h
    have hd : bs.drop pos = [] := by
      simp only [List.drop_eq_nil_iff]
      omega
    simp [hd, rust_lines_aux, join_lines]

/-! Helper lemmas about the modelled oracle call. -/

/-- A not-ok oracle outcome makes `call_generative_extraction` return an error. -/
theorem call_error_of_not_ok (cs : String) (nt : List Nat) (o : OracleOutcome)
    (h : oracle_call_ok o = false) :
    ∃ e, (call_generative_extraction cs nt o).result = .error e := by
  cases o with
  | spawnFailure => exact ⟨_, rfl⟩
  | stdinUnavailable => exact ⟨_, rfl⟩
  | stdinWriteFailure => exact ⟨_, rfl⟩
  | waitFailure => exact ⟨_, rfl⟩
  | exited success stdout =>
    cases success with
    | false => exact ⟨"Claude CLI failed", by simp [call_generative_extraction]⟩
    | true =>
      cases herf : extract_result_field stdout with
      | ok v => simp [oracle_call_ok, herf] at h
      | error e => exact ⟨e, by simp [call_generative_extraction, herf]⟩

/-- An ok oracle outcome makes `call_generative_extraction` return the result
field. -/
theorem call_ok_of_ok (cs : String) (nt : List Nat) (o : OracleOutcome)
    (h : oracle_call_ok o = true) :
    ∃ ns, (call_generative_extraction cs nt o).result = .ok ns := by
  cases o with
  | spawnFailure => simp [oracle_call_ok] at h
  | stdinUnavailable => simp [oracle_call_ok] at h
  | stdinWriteFailure => simp [oracle_call_ok] at h
  | waitFailure => simp [oracle_call_ok] at h
  | exited success stdout =>
    cases success with
    | false => simp [oracle_call_ok] at h
    | true =>
      cases herf : extract_result_field stdout with
      | ok v => exact ⟨v, by simp [call_generative_extraction, herf]⟩
      | error e => simp [oracle_call_ok, herf] at h

/-- A not-ok oracle outcome makes `compile_with_llm` return an error. -/
theorem compile_error_of_not_ok (st : String) (intent : Option String) (o : OracleOutcome)
    (h : oracle_call_ok o = false) :
    ∃ e, (compile_with_llm st intent o).result = .error e := by
  cases o with
  | spawnFailure => exact ⟨_, rfl⟩
  | stdinUnavailable => exact ⟨_, rfl⟩
  | stdinWriteFailure => exact ⟨_, rfl⟩
  | waitFailure => exact ⟨_, rfl⟩
  | exited success stdout =>
    cases success with
    | false => exact ⟨"Claude CLI failed", by simp [compile_with_llm]⟩
    | true =>
      cases herf : extract_result_field stdout with
      | ok v => simp [oracle_call_ok, herf] at h
      | error e => exact ⟨e, by simp [compile_with_llm, herf]⟩

/-- Shared helper: with a readable transcript, a nonempty slice and a failing
oracle call, extraction returns the propagated error and leaves state.md and
the checkpoint unchanged. -/
theorem extract_failure_effects (env : ExtractEnv)
    (hread : env.transcriptReadable = true)
    (hne : read_transcript_since_position env.transcriptAtRead
      (read_checkpoint env.checkpointFile) ≠ [])
    (hfail : oracle_call_ok env.oracle = false) :
    ∃ e, extract_from_transcript env =
      ⟨.error e, true, env.stateMd, env.checkpointFile, []⟩ := by
  obtain ⟨e, he⟩ := call_error_of_not_ok env.stateMd
    (read_transcript_since_position env.transcriptAtRead (read_checkpoint env.checkpointFile))
    env.oracle hfail
  refine ⟨e, ?_⟩
  have hisE : (read_transcript_since_position env.transcriptAtRead
      (read_checkpoint env.checkpointFile)).isEmpty = false := by
    cases hl : read_transcript_since_position env.transcriptAtRead
        (read_checkpoint env.checkpointFile) with
    | nil => exact absurd hl hne
    | cons a l => rfl
  unfold extract_from_transcript
  simp [hread, hisE, he]

/-- Shared helper: with a readable transcript, a nonempty slice, a succeeding
oracle call and no io failure, extraction writes the oracle's result and
records the post-run transcript length as the checkpoint. -/
theorem extract_success_effects (env : ExtractEnv)
    (hread : env.transcriptReadable = true)
    (hne : read_transcript_since_position env.transcriptAtRead
      (read_checkpoint env.checkpointFile) ≠ [])
    (hok : oracle_call_ok env.oracle = true)
    (hw : env.stateWriteOk = true) (hm : env.metadataOk = true)
    (hc : env.ckptWriteOk = true) :
    ∃ ns, extract_from_transcript env =
      ⟨.ok (), true, ns, some env.transcriptAtCkpt.length, ["State updated"]⟩ := by
  obtain ⟨ns, he⟩ := call_ok_of_ok env.stateMd
    (read_transcript_since_position env.transcriptAtRead (read_checkpoint env.checkpointFile))
    env.oracle hok
  refine ⟨ns, ?_⟩
  have hisE : (read_transcript_since_position env.transcriptAtRead
      (read_checkpoint env.checkpointFile)).isEmpty = false := by
    cases hl : read_transcript_since_position env.transcriptAtRead
        (read_checkpoint env.checkpointFile) with
    | nil => exact absurd hl hne
    | cons a l => rfl
  unfold extract_from_transcript
  simp [hread, hisE, he, hw, hm, hc]

/-- Shared helper: every extraction run either leaves the checkpoint file
unchanged, or it is a fully successful run on a nonempty slice and records
exactly the post-run transcript length. -/
theorem extract_ckpt_unchanged_or_eof (env : ExtractEnv) :
    (extract_from_transcript env).checkpointAfter = env.checkpointFile ∨
    ((extract_from_transcript env).checkpointAfter = some env.transcriptAtCkpt.length ∧
      read_transcript_since_position env.transcriptAtRead
        (read_checkpoint env.checkpointFile) ≠ [] ∧
      (extract_from_transcript env).result = .ok ()) := by
  by_cases hread : env.transcriptReadable = true
  case neg =>
    simp only [Bool.not_eq_true] at hread
    left
    unfold extract_from_transcript
    simp [hread]
  by_cases hnil : read_transcript_since_position env.transcriptAtRead
      (read_checkpoint env.checkpointFile) = []
  · left
    unfold extract_from_transcript
    simp [hread, hnil]
  · have hisE : (read_transcript_since_position env.transcriptAtRead
        (read_checkpoint env.checkpointFile)).isEmpty = false := by
      cases hl : read_transcript_since_position env.transcriptAtRead
          (read_checkpoint env.checkpointFile) with
      | nil => exact absurd hl hnil
      | cons a l => rfl
    by_cases hok : oracle_call_ok env.oracle = true
    case neg =>
      simp only [Bool.not_eq_true] at hok
      obtain ⟨e, hmain⟩ := extract_failure_effects env hread hnil hok
      left
      rw [hmain]
    obtain ⟨ns, hcall⟩ := call_ok_of_ok env.stateMd
      (read_transcript_since_position env.transcriptAtRead (read_checkpoint env.checkpointFile))
      env.oracle hok
    by_cases hw : env.stateWriteOk = true
    case neg =>
      simp only [Bool.not_eq_true] at hw
      left
      unfold extract_from_transcript
      simp [hread, hisE, hcall, hw]
    by_cases hm : env.metadataOk = true
    case neg =>
      simp only [Bool.not_eq_true] at hm
      left
      unfold extract_from_transcript
      simp [hread, hisE, hcall, hw, hm]
    by_cases hc : env.ckptWriteOk = true
    case neg =>
      simp only [Bool.not_eq_true] at hc
      left
      unfold extract_from_transcript
      simp [hread, hisE, hcall, hw, hm, hc]
    obtain ⟨ns2, hmain⟩ := extract_success_effects env hread hnil hok hw hm hc
    right
    rw [hmain]
    exact ⟨rfl, hnil, rfl⟩

/-! Concrete environments used by witnesses and counterexamples. -/

/-- Hook extraction environment: initialized project, transcript found, bytes
"hi\n" unread, oracle spawn failure. -/
def c2FailEnv : HookExtractEnv :=
  ⟨true, true, ⟨"", none, true, [104, 105, 10], [104, 105, 10], true, true, true,
    .spawnFailure⟩⟩

/-- Hook extraction environment: initialized project, no transcript found. -/
def c2NotFoundEnv : HookExtractEnv :=
  ⟨true, false, ⟨"", none, true, [], [], true, true, true, .spawnFailure⟩⟩

/-- Extraction environment in which the transcript grows during the run: two
bytes "a\n" at read time, four bytes "a\nb\n" when the metadata is sampled
after the oracle call; the oracle succeeds with result "NEW". -/
def growthEnv : ExtractEnv :=
  ⟨"", none, true, [97, 10], [97, 10, 98, 10], true, true, true,
    .exited true (some (.obj [("result", Json.str "NEW")]))⟩

/-- Extraction environment with checkpoint offset equal to the transcript
length (3 bytes "ab\n", offset 3). -/
def c6Env : ExtractEnv :=
  ⟨"knowledge", some 3, true, [97, 98, 10], [97, 98, 10], true, true, true,
    .spawnFailure⟩

/-- Extraction environment for the monotonicity witness: offset 0, transcript
"h\n" grown to "h\ni\n", successful oracle. -/
def c7Env : ExtractEnv :=
  ⟨"", some 0, true, [104, 10], [104, 10, 105, 10], true, true, true,
    .exited true (some (.obj [("result", Json.str "S")]))⟩

/-- Extraction environment whose oracle returns valid JSON lacking the
"result" field. -/
def c9Env : ExtractEnv :=
  ⟨"prior", some 0, true, [120, 10], [120, 10], true, true, true,
    .exited true (some (.obj [("other", Json.str "x")]))⟩

/-- C2 counterexample: an initialized hook-triggered extraction whose oracle
spawn fails returns an error, not success — the claim that every
hook-triggered run degrades failures and returns success is false on this
input. -/
theorem C2_counterexample :
    (run_hook_extract c2FailEnv).result = .error "Failed to spawn claude CLI" ∧
    (run_hook_extract c2FailEnv).result ≠ .ok () := by
  constructor
  · rfl
  · intro h
    exact Except.noConfusion h

/-- C2 (amended): a hook-triggered extraction run silences only the
not-initialized condition; on an initialized project a missing transcript is
returned as an error, and an oracle failure (spawn failure, non-zero exit,
malformed response) on a nonempty slice is returned as an error with state.md
and the checkpoint unchanged. -/
theorem C2_hook_extract_error_propagation (env : HookExtractEnv)
    (hinit : env.initialized = true) :
    (env.transcriptFound = false →
      run_hook_extract env =
        ⟨.error "Could not find transcript. Use --transcript <path> to specify.", false,
          env.extractEnv.stateMd, env.extractEnv.checkpointFile, []⟩) ∧
    (env.transcriptFound = true → env.extractEnv.transcriptReadable = true →
      read_transcript_since_position env.extractEnv.transcriptAtRead
        (read_checkpoint env.extractEnv.checkpointFile) ≠ [] →
      oracle_call_ok env.extractEnv.oracle = false →
      ∃ e, run_hook_extract env =
        ⟨.error e, true, env.extractEnv.stateMd, env.extractEnv.checkpointFile, []⟩) := by
  constructor
  · intro hnf
    unfold run_hook_extract
    simp [hinit, hnf]
  · intro hf hread hne hfail
    have heq : run_hook_extract env = extract_from_transcript env.extractEnv := by
      unfold run_hook_extract
      simp [hinit, hf]
    rw [heq]
    exact extract_failure_effects env.extractEnv hread hne hfail

/-- C2 witness: the amended theorem applied to the transcript-not-found and
oracle-spawn-failure environments. -/
theorem C2_witness :
    run_hook_extract c2NotFoundEnv =
      ⟨.error "Could not find transcript. Use --transcript <path> to specify.", false,
        c2NotFoundEnv.extractEnv.stateMd, c2NotFoundEnv.extractEnv.checkpointFile, []⟩ ∧
    ∃ e, run_hook_extract c2FailEnv =
      ⟨.error e, true, c2FailEnv.extractEnv.stateMd, c2FailEnv.extractEnv.checkpointFile, []⟩ :=
  ⟨(C2_hook_extract_error_propagation c2NotFoundEnv rfl).1 rfl,
    (C2_hook_extract_error_propagation c2FailEnv rfl).2 rfl rfl (by decide) rfl⟩

/-- C4 counterexample: with offset 0, transcript "a\n" (2 bytes) at read time
grown to "a\nb\n" (4 bytes) by checkpoint time, the recorded checkpoint is 4
— the post-run length, not the length 2 at the start of the read — and the
appended bytes are behind it, so the next run's slice is empty rather than
containing them. -/
theorem C4_counterexample :
    (extract_from_transcript growthEnv).checkpointAfter = some 4 ∧
    (extract_from_transcript growthEnv).checkpointAfter ≠ some 2 ∧
    growthEnv.transcriptAtRead.length = 2 ∧
    read_transcript_since_position growthEnv.transcriptAtCkpt 4 = [] := by
  refine ⟨rfl, ?_, rfl, rfl⟩
  intro h
  simp [extract_from_transcript, growthEnv, call_generative_extraction,
    extract_result_field, Json.getField, read_transcript_since_position,
    rust_lines, rust_lines_aux, strip_trailing_cr, join_lines, read_checkpoint] at h

/-- C4 (amended): a successful extraction run on a nonempty slice advances
the checkpoint to the transcript's end-of-file length sampled after the state
write (the post-run length); bytes appended during the run therefore sit at
or before the recorded checkpoint and the next slice over the grown
transcript starting there is empty. -/
theorem C4_checkpoint_records_post_run_eof (env : ExtractEnv)
    (hread : env.transcriptReadable = true)
    (hne : read_transcript_since_position env.transcriptAtRead
      (read_checkpoint env.checkpointFile) ≠ [])
    (hok : oracle_call_ok env.oracle = true)
    (hw : env.stateWriteOk = true) (hm : env.metadataOk = true)
    (hc : env.ckptWriteOk = true) :
    (extract_from_transcript env).checkpointAfter = some env.transcriptAtCkpt.length ∧
    read_transcript_since_position env.transcriptAtCkpt
      env.transcriptAtCkpt.length = [] := by
  obtain ⟨ns, hmain⟩ := extract_success_effects env hread hne hok hw hm hc
  rw [hmain]
  exact ⟨rfl, (read_since_eq_nil_iff _ _).mpr (le_refl _)⟩

/-- C4 witness: the amended theorem applied to the growing-transcript
environment. -/
theorem C4_witness :
    (extract_from_transcript growthEnv).checkpointAfter =
      some growthEnv.transcriptAtCkpt.length ∧
    read_transcript_since_position growthEnv.transcriptAtCkpt
      growthEnv.transcriptAtCkpt.length = [] :=
  C4_checkpoint_records_post_run_eof growthEnv rfl (by decide) (by decide) rfl rfl rfl

/-- C6: an extraction run whose checkpoint offset is at the transcript's
current byte length — or more generally whose new slice is empty — invokes no
oracle, changes neither state.md nor the checkpoint, prints the no-new-content
message and returns success; a second run over the resulting files behaves
identically. -/
theorem C6_empty_slice_noop (env : ExtractEnv)
    (hread : env.transcriptReadable = true)
    (h : read_checkpoint env.checkpointFile = env.transcriptAtRead.length ∨
      read_transcript_since_position env.transcriptAtRead
        (read_checkpoint env.checkpointFile) = []) :
    extract_from_transcript env =
      ⟨.ok (), false, env.stateMd, env.checkpointFile,
        ["No new transcript content to extract from."]⟩ ∧
    extract_from_transcript { env with
        stateMd := (extract_from_transcript env).stateAfter,
        checkpointFile := (extract_from_transcript env).checkpointAfter } =
      extract_from_transcript env := by
  have hnil : read_transcript_since_position env.transcriptAtRead
      (read_checkpoint env.checkpointFile) = [] := by
    rcases h with h | h
    · exact (read_since_eq_nil_iff _ _).mpr (le_of_eq h.symm)
    · exact h
  have hmain : extract_from_transcript env =
      ⟨.ok (), false, env.stateMd, env.checkpointFile,
        ["No new transcript content to extract from."]⟩ := by
    unfold extract_from_transcript
    simp [hread, hnil]
  refine ⟨hmain, ?_⟩
  rw [hmain]
  exact hmain

/-- C6 witness: the theorem applied to the offset-equals-length environment. -/
theorem C6_witness :
    extract_from_transcript c6Env =
      ⟨.ok (), false, c6Env.stateMd, c6Env.checkpointFile,
        ["No new transcript content to extract from."]⟩ :=
  (C6_empty_slice_noop c6Env rfl (Or.inl (by decide))).1

/-- C7: under append-only transcript growth during the run, the recorded
checkpoint offset never decreases — a run either leaves the checkpoint file
unchanged (in particular on every failure) or records an offset at least as
large as the one it read. -/
theorem C7_checkpoint_monotone (env : ExtractEnv)
    (happend : env.transcriptAtRead.length ≤ env.transcriptAtCkpt.length) :
    read_checkpoint env.checkpointFile ≤
      read_checkpoint (extract_from_transcript env).checkpointAfter ∧
    (∀ e, (extract_from_transcript env).result = .error e →
      (extract_from_transcript env).checkpointAfter = env.checkpointFile) := by
  rcases extract_ckpt_unchanged_or_eof env with hsame | ⟨heof, hne, hres⟩
  · rw [hsame]
    exact ⟨le_refl _, fun e a => rfl⟩
  · have hlt : read_checkpoint env.checkpointFile < env.transcriptAtRead.length := by
      by_contra hge
      push_neg at hge
      exact hne ((read_since_eq_nil_iff _ _).mpr hge)
    constructor
    · rw [heof]
      simp only [read_checkpoint, Option.getD_some] at hlt ⊢
      omega
    · intro e ha
      rw [hres] at ha
      exact Except.noConfusion ha

/-- C7 witness: the theorem applied to the growing-transcript environment. -/
theorem C7_witness :
    read_checkpoint c7Env.checkpointFile ≤
      read_checkpoint (extract_from_transcript c7Env).checkpointAfter :=
  (C7_checkpoint_monotone c7Env (by decide)).1

/-- C9: a directly-invoked extraction run whose oracle call fails (spawn
failure, non-zero exit, malformed or result-less response) returns an error
and writes nothing: state.md and the checkpoint are unchanged. -/
theorem C9_direct_failure_writes_nothing (env : ExtractEnv)
    (hread : env.transcriptReadable = true)
    (hne : read_transcript_since_position env.transcriptAtRead
      (read_checkpoint env.checkpointFile) ≠ [])
    (hfail : oracle_call_ok env.oracle = false) :
    (∃ e, (extract_from_transcript env).result = .error e) ∧
    (extract_from_transcript env).stateAfter = env.stateMd ∧
    (extract_from_transcript env).checkpointAfter = env.checkpointFile := by
  obtain ⟨e, hmain⟩ := extract_failure_effects env hread hne hfail
  rw [hmain]
  exact ⟨⟨e, rfl⟩, rfl, rfl⟩

/-- C9 witness: the theorem applied to the missing-result-field environment. -/
theorem C9_witness :
    (∃ e, (extract_from_transcript c9Env).result = .error e) ∧
    (extract_from_transcript c9Env).stateAfter = c9Env.stateMd ∧
    (extract_from_transcript c9Env).checkpointAfter = c9Env.checkpointFile :=
  C9_direct_failure_writes_nothing c9Env rfl (by decide) (by decide)

/-- C1: the working-set path is independent of the session identifier — every
hook-compile run, whatever its --session_id, writes the one shared path
.wm/working_set.md, and reads resolve that same shared path; there is no
session-namespaced path in the code. -/
theorem C1_working_set_path_shared :
    (∀ s1 s2 : String, hook_compile_write_path s1 = hook_compile_write_path s2) ∧
    hook_compile_write_path "session-a" = ".wm/working_set.md" ∧
    read_working_set_path = ".wm/working_set.md" :=
  ⟨fun _ _ => rfl, rfl, rfl⟩

/-- C3: on the spawn / stdin-handle / stdin-write / wait failure paths, both
oracle wrappers return with WM_DISABLED still set to "1" (the early returns
precede the remove_var call), so the suspension flag is not cleared on every
exit path; the entry-point disable check still sees it as set. -/
theorem C3_flag_left_set_on_early_failures :
    (call_generative_extraction "" [] .spawnFailure).wmDisabledAfter = some "1" ∧
    (call_generative_extraction "" [] .stdinUnavailable).wmDisabledAfter = some "1" ∧
    (call_generative_extraction "" [] .stdinWriteFailure).wmDisabledAfter = some "1" ∧
    (call_generative_extraction "" [] .waitFailure).wmDisabledAfter = some "1" ∧
    (compile_with_llm "" none .spawnFailure).wmDisabledAfter = some "1" ∧
    (compile_with_llm "" none .waitFailure).wmDisabledAfter = some "1" ∧
    wm_disabled_check (call_generative_extraction "" [] .spawnFailure).wmDisabledAfter = true :=
  ⟨rfl, rfl, rfl, rfl, rfl, rfl, rfl⟩

/-- C5: the entry-point disable check tests only presence of WM_DISABLED, so
any present value — in particular the empty string that `run_background` sets
in its child's environment — makes the process exit immediately with success
and run no command logic: every background extraction child is a no-op. -/
theorem C5_background_child_noop :
    (∀ v : String, wm_disabled_check (some v) = true) ∧
    run_background_child_wm_disabled = some "" ∧
    (∀ r : Except String Unit,
      mainEntry run_background_child_wm_disabled r = ⟨false, true⟩) :=
  ⟨fun _ => rfl, rfl, fun _ => rfl⟩

/-- Hook-compile environment: uninitialized project. -/
def c8UninitEnv : HookCompileEnv := ⟨false, none, "", .spawnFailure⟩

/-- Hook-compile environment: initialized project with knowledge, oracle
spawn failure. -/
def c8FailEnv : HookCompileEnv := ⟨true, none, "some knowledge", .spawnFailure⟩

/-- C8 counterexample: a hook-compile invocation on an uninitialized project
emits no output line at all (not one), while still reporting success — the
claim that every hook-compile invocation emits exactly one line is false on
this input. -/
theorem C8_counterexample :
    (run_hook_compile c8UninitEnv).stdoutResponses = [] ∧
    (run_hook_compile c8UninitEnv).stdoutResponses.length ≠ 1 ∧
    (run_hook_compile c8UninitEnv).result = .ok () := by
  refine ⟨rfl, ?_, rfl⟩
  decide

/-- C8 (amended): on an initialized project, every hook-compile invocation
emits exactly one response object and reports success, and whenever the
oracle call fails the emitted object has no context field; on an
uninitialized project the hook emits nothing and still reports success. -/
theorem C8_hook_compile_single_line (env : HookCompileEnv)
    (hinit : env.initialized = true) :
    (run_hook_compile env).stdoutResponses.length = 1 ∧
    (run_hook_compile env).result = .ok () ∧
    (oracle_call_ok env.oracle = false →
      (run_hook_compile env).stdoutResponses = [⟨none⟩]) := by
  unfold run_hook_compile
  by_cases hstate : (rust_trim env.stateMd).isEmpty
  · simp [hinit, hstate]
  · simp only [hinit, Bool.not_true, Bool.false_eq_true, if_false, hstate,
      Bool.not_eq_true, if_neg]
    refine ⟨?_, ?_, ?_⟩
    · simp [hstate]
    · simp [hstate]
    · intro hfail
      obtain ⟨e, he⟩ := compile_error_of_not_ok env.stateMd env.intent env.oracle hfail
      simp [hstate, he]
      rfl

/-- C8 witness: the amended theorem applied to the initialized
oracle-failure environment. -/
theorem C8_witness :
    (run_hook_compile c8FailEnv).stdoutResponses.length = 1 ∧
    (run_hook_compile c8FailEnv).result = .ok () :=
  ⟨(C8_hook_compile_single_line c8FailEnv rfl).1,
    (C8_hook_compile_single_line c8FailEnv rfl).2.1⟩

/-! Helper lemmas for the serde round-trip. -/

theorem lookup_str_append (k : String) (l1 l2 : List (String × Json)) :
    List.lookup k (l1 ++ l2) = (List.lookup k l1).or (List.lookup k l2) := by
  induction l1 with
  | nil => simp [List.lookup]
  | cons p l ih =>
    obtain ⟨a, b⟩ := p
    by_cases h : k == a
    · simp [List.lookup, h]
    · simp only [Bool.not_eq_true] at h
      simp [List.lookup, h, ih]

theorem lookup_opt_field_self (name : String) (v : Option Json) :
    List.lookup name (opt_field name v) = v := by
  cases v <;> simp [opt_field, List.lookup]

theorem lookup_opt_field_ne (k name : String) (v : Option Json) (h : (k == name) = false) :
    List.lookup k (opt_field name v) = none := by
  cases v <;> simp [opt_field, List.lookup, h]

theorem mapM_map_some {α : Type} (f : α → Json) (g : Json → Option α) (l : List α)
    (h : ∀ a ∈ l, g (f a) = some a) : (l.map f).mapM g = some l := by
  induction l with
  | nil => rfl
  | cons x xs ih =>
    simp only [List.map_cons, List.mapM_cons, h x (List.mem_cons_self x xs),
      ih fun a ha => h a (List.mem_cons_of_mem x ha), Option.bind_eq_bind,
      Option.some_bind, Option.pure_def]

theorem decode_str_list_encode (l : List String) :
    decode_str_list (encode_str_list l) = some l := by
  unfold decode_str_list encode_str_list
  exact mapM_map_some Json.str _ l fun a _ => rfl

theorem decode_str_list_default_edge (l : List String) :
    decode_str_list_default (if l.isEmpty then none else some (encode_str_list l)) =
      some l := by
  by_cases h : l.isEmpty
  · rw [if_pos h]
    rw [List.isEmpty_iff.mp h]
    rfl
  · rw [if_neg h]
    exact decode_str_list_encode l

theorem decode_opt_str_map (o : Option String) :
    decode_opt_str (o.map Json.str) = some o := by
  cases o <;> rfl

theorem itemType_fromStr_toStr (t : ItemType) : ItemType.fromStr t.toStr = some t := by
  cases t <;> decide

theorem itemStatus_fromStr_toStr (t : ItemStatus) :
    ItemStatus.fromStr t.toStr = some t := by
  cases t <;> decide

theorem decode_uint_encode (bound n : Nat) (h : n < bound) :
    decode_uint bound (encode_nat n) = some n := by
  have hnum : ((n : ℚ)).num = (n : ℤ) := Rat.num_natCast n
  show (if ((n : ℚ)).den = 1 ∧ 0 ≤ ((n : ℚ)).num ∧ ((n : ℚ)).num < bound
    then some ((n : ℚ)).num.toNat else none) = some n
  rw [if_pos ⟨Rat.den_natCast n, by simp [hnum], by rw [hnum]; exact_mod_cast h⟩]
  rw [hnum]
  simp

set_option maxRecDepth 4096 in
theorem decode_opt_u32_map (o : Option Nat) (h : o.all (fun n => n < 2 ^ 32) = true) :
    decode_opt_u32 (o.map encode_nat) = some o := by
  cases o with
  | none => rfl
  | some n =>
    simp only [Option.all_some, decide_eq_true_eq] at h
    have h1 : (some n).map encode_nat = some (encode_nat n) := rfl
    rw [h1]
    have h2 : decode_opt_u32 (some (encode_nat n)) =
        (decode_uint (2 ^ 32) (encode_nat n)).map some := rfl
    rw [h2, decode_uint_encode (2 ^ 32) n h]
    rfl

set_option maxRecDepth 4096 in
theorem decode_opt_u64_map (o : Option Nat) (h : o.all (fun n => n < 2 ^ 64) = true) :
    decode_opt_u64 (o.map encode_nat) = some o := by
  cases o with
  | none => rfl
  | some n =>
    simp only [Option.all_some, decide_eq_true_eq] at h
    have h1 : (some n).map encode_nat = some (encode_nat n) := rfl
    rw [h1]
    have h2 : decode_opt_u64 (some (encode_nat n)) =
        (decode_uint (2 ^ 64) (encode_nat n)).map some := rfl
    rw [h2, decode_uint_encode (2 ^ 64) n h]
    rfl

theorem option_or_none (o : Option Json) : o.or none = o := by
  cases o <;> rfl

theorem getField_encode_edges_applies_to (e : Edges) :
    (encode_edges e).getField "applies_to" =
      if e.applies_to.isEmpty then none else some (encode_str_list e.applies_to) := by
  simp [encode_edges, edge_field, Json.getField, lookup_str_append,
    lookup_opt_field_self, lookup_opt_field_ne, option_or_none, encode_str_list]

theorem getField_encode_edges_uses (e : Edges) :
    (encode_edges e).getField "uses" =
      if e.uses.isEmpty then none else some (encode_str_list e.uses) := by
  simp [encode_edges, edge_field, Json.getField, lookup_str_append,
    lookup_opt_field_self, lookup_opt_field_ne, option_or_none, encode_str_list]

theorem getField_encode_edges_grounded_in (e : Edges) :
    (encode_edges e).getField "grounded_in" =
      if e.grounded_in.isEmpty then none else some (encode_str_list e.grounded_in) := by
  simp [encode_edges, edge_field, Json.getField, lookup_str_append,
    lookup_opt_field_self, lookup_opt_field_ne, option_or_none, encode_str_list]

theorem getField_encode_edges_supersedes (e : Edges) :
    (encode_edges e).getField "supersedes" =
      if e.supersedes.isEmpty then none else some (encode_str_list e.supersedes) := by
  simp [encode_edges, edge_field, Json.getField, lookup_str_append,
    lookup_opt_field_self, lookup_opt_field_ne, option_or_none, encode_str_list]

theorem getField_encode_edges_conflicts_with (e : Edges) :
    (encode_edges e).getField "conflicts_with" =
      if e.conflicts_with.isEmpty then none else some (encode_str_list e.conflicts_with) := by
  simp [encode_edges, edge_field, Json.getField, lookup_str_append,
    lookup_opt_field_self, lookup_opt_field_ne, option_or_none, encode_str_list]

theorem getField_encode_edges_derived_from (e : Edges) :
    (encode_edges e).getField "derived_from" =
      if e.derived_from.isEmpty then none else some (encode_str_list e.derived_from) := by
  simp [encode_edges, edge_field, Json.getField, lookup_str_append,
    lookup_opt_field_self, lookup_opt_field_ne, option_or_none, encode_str_list]

theorem decode_str_list_default_ite (l : List String) :
    decode_str_list_default (if l = [] then none else some (encode_str_list l)) = some l := by
  by_cases h : l = []
  · subst h
    rfl
  · rw [if_neg h]
    exact decode_str_list_encode l

theorem decode_edges_encode (e : Edges) : decode_edges (encode_edges e) = some e := by
  have hobj : (encode_edges e).isObj = true := rfl
  simp [decode_edges, hobj, getField_encode_edges_applies_to, getField_encode_edges_uses,
    getField_encode_edges_grounded_in, getField_encode_edges_supersedes,
    getField_encode_edges_conflicts_with, getField_encode_edges_derived_from,
    decode_str_list_default_ite]

theorem option_some_or (a : Json) (o : Option Json) : (some a).or o = some a := rfl

theorem option_none_or (o : Option Json) : Option.or none o = o := rfl

theorem getField_encode_provenance_session_id (p : Provenance) :
    (encode_provenance p).getField "session_id" = p.session_id.map Json.str := by
  simp [encode_provenance, Json.getField, lookup_str_append, lookup_opt_field_self,
    lookup_opt_field_ne, option_or_none, option_none_or, List.lookup]

theorem getField_encode_provenance_turn (p : Provenance) :
    (encode_provenance p).getField "turn" = p.turn.map encode_nat := by
  simp [encode_provenance, Json.getField, lookup_str_append, lookup_opt_field_self,
    lookup_opt_field_ne, option_or_none, option_none_or, List.lookup]

theorem getField_encode_provenance_timestamp (p : Provenance) :
    (encode_provenance p).getField "timestamp" = some (Json.str p.timestamp) := by
  simp [encode_provenance, Json.getField, lookup_str_append, lookup_opt_field_self,
    lookup_opt_field_ne, option_or_none, option_none_or, List.lookup]

theorem decode_provenance_encode (p : Provenance)
    (hturn : (p.turn.all fun n => n < 2 ^ 32) = true) :
    decode_provenance (encode_provenance p) = some p := by
  have hobj : (encode_provenance p).isObj = true := rfl
  simp only [decode_provenance, hobj, if_true, getField_encode_provenance_session_id,
    getField_encode_provenance_turn, getField_encode_provenance_timestamp,
    decode_opt_str_map, decode_opt_u32_map p.turn hturn, decode_str,
    Option.bind_eq_bind, Option.some_bind]

theorem getField_encode_checkpoint_last_extraction (c : Checkpoint) :
    (encode_checkpoint c).getField "last_extraction" = c.last_extraction.map Json.str := by
  simp [encode_checkpoint, Json.getField, lookup_str_append, lookup_opt_field_self,
    lookup_opt_field_ne, option_or_none, option_none_or, List.lookup]

theorem getField_encode_checkpoint_transcript_position (c : Checkpoint) :
    (encode_checkpoint c).getField "transcript_position" =
      c.transcript_position.map encode_nat := by
  simp [encode_checkpoint, Json.getField, lookup_str_append, lookup_opt_field_self,
    lookup_opt_field_ne, option_or_none, option_none_or, List.lookup]

theorem decode_checkpoint_encode (c : Checkpoint)
    (hpos : (c.transcript_position.all fun n => n < 2 ^ 64) = true) :
    decode_checkpoint (encode_checkpoint c) = some c := by
  have hobj : (encode_checkpoint c).isObj = true := by
    cases hle : c.last_extraction <;> cases htp : c.transcript_position <;>
      simp [encode_checkpoint, Json.isObj, opt_field, hle, htp]
  simp only [decode_checkpoint, hobj, if_true,
    getField_encode_checkpoint_last_extraction,
    getField_encode_checkpoint_transcript_position, decode_opt_str_map,
    decode_opt_u64_map c.transcript_position hpos,
    Option.bind_eq_bind, Option.some_bind]

theorem decode_conflict_encode (c : Conflict) :
    decode_conflict (encode_conflict c) = some c := by
  have hobj : (encode_conflict c).isObj = true := rfl
  simp [decode_conflict, hobj, encode_conflict, Json.getField, Json.isObj,
    List.lookup, decode_str, decode_str_list_encode]

theorem decode_f64_default_encode (f : F64) (h : f.isFinite = true) :
    decode_f64_default (some (encode_f64 f)) = some f := by
  cases f with
  | finite q => rfl
  | nonfinite => simp [F64.isFinite] at h

theorem getField_encode_item_id (i : Item) :
    (encode_item i).getField "id" = some (Json.str i.id) := by
  simp [encode_item, Json.getField, lookup_str_append, lookup_opt_field_self,
    lookup_opt_field_ne, option_or_none, option_none_or, option_some_or, List.lookup]

theorem getField_encode_item_type (i : Item) :
    (encode_item i).getField "type" = some (Json.str i.item_type.toStr) := by
  simp [encode_item, Json.getField, lookup_str_append, lookup_opt_field_self,
    lookup_opt_field_ne, option_or_none, option_none_or, option_some_or, List.lookup]

theorem getField_encode_item_status (i : Item) :
    (encode_item i).getField "status" = some (Json.str i.status.toStr) := by
  simp [encode_item, Json.getField, lookup_str_append, lookup_opt_field_self,
    lookup_opt_field_ne, option_or_none, option_none_or, option_some_or, List.lookup]

theorem getField_encode_item_text (i : Item) :
    (encode_item i).getField "text" = some (Json.str i.text) := by
  simp [encode_item, Json.getField, lookup_str_append, lookup_opt_field_self,
    lookup_opt_field_ne, option_or_none, option_none_or, option_some_or, List.lookup]

theorem getField_encode_item_rationale (i : Item) :
    (encode_item i).getField "rationale" = i.rationale.map Json.str := by
  simp [encode_item, Json.getField, lookup_str_append, lookup_opt_field_self,
    lookup_opt_field_ne, option_or_none, option_none_or, option_some_or, List.lookup]

theorem getField_encode_item_edges (i : Item) :
    (encode_item i).getField "edges" = some (encode_edges i.edges) := by
  simp [encode_item, Json.getField, lookup_str_append, lookup_opt_field_self,
    lookup_opt_field_ne, option_or_none, option_none_or, option_some_or, List.lookup]

theorem getField_encode_item_provenance (i : Item) :
    (encode_item i).getField "provenance" = some (encode_provenance i.provenance) := by
  simp [encode_item, Json.getField, lookup_str_append, lookup_opt_field_self,
    lookup_opt_field_ne, option_or_none, option_none_or, option_some_or, List.lookup]

theorem getField_encode_item_strength (i : Item) :
    (encode_item i).getField "strength" = some (encode_f64 i.strength) := by
  simp [encode_item, Json.getField, lookup_str_append, lookup_opt_field_self,
    lookup_opt_field_ne, option_or_none, option_none_or, option_some_or, List.lookup]

theorem getField_encode_item_pinned (i : Item) :
    (encode_item i).getField "pinned" = some (Json.bool i.pinned) := by
  simp [encode_item, Json.getField, lookup_str_append, lookup_opt_field_self,
    lookup_opt_field_ne, option_or_none, option_none_or, option_some_or, List.lookup]

theorem getField_encode_item_created_at (i : Item) :
    (encode_item i).getField "created_at" = some (Json.str i.created_at) := by
  simp [encode_item, Json.getField, lookup_str_append, lookup_opt_field_self,
    lookup_opt_field_ne, option_or_none, option_none_or, option_some_or, List.lookup]

theorem getField_encode_item_last_used_at (i : Item) :
    (encode_item i).getField "last_used_at" = i.last_used_at.map Json.str := by
  simp [encode_item, Json.getField, lookup_str_append, lookup_opt_field_self,
    lookup_opt_field_ne, option_or_none, option_none_or, option_some_or, List.lookup]

theorem decode_item_encode (i : Item)
    (hturn : (i.provenance.turn.all fun n => n < 2 ^ 32) = true)
    (hfin : i.strength.isFinite = true) :
    decode_item (encode_item i) = some i := by
  have hobj : (encode_item i).isObj = true := by
    cases hr : i.rationale <;> cases hl : i.last_used_at <;>
      simp [encode_item, Json.isObj, opt_field, hr, hl]
  simp only [decode_item, hobj, if_true, getField_encode_item_id,
    getField_encode_item_type, getField_encode_item_status, getField_encode_item_text,
    getField_encode_item_rationale, getField_encode_item_edges,
    getField_encode_item_provenance, getField_encode_item_strength,
    getField_encode_item_pinned, getField_encode_item_created_at,
    getField_encode_item_last_used_at, decode_str, decode_opt_str_map,
    itemType_fromStr_toStr, itemStatus_fromStr_toStr,
    decode_edges_default, decode_edges_encode,
    decode_provenance_encode i.provenance hturn,
    decode_f64_default_encode i.strength hfin, decode_bool_default,
    Option.bind_eq_bind, Option.some_bind]

theorem getField_encode_state_schema_version (s : State) :
    (encode_state s).getField "schema_version" = some (Json.str s.schema_version) := by
  simp [encode_state, Json.getField, List.lookup]

theorem getField_encode_state_project_id (s : State) :
    (encode_state s).getField "project_id" = some (Json.str s.project_id) := by
  simp [encode_state, Json.getField, List.lookup]

theorem getField_encode_state_updated_at (s : State) :
    (encode_state s).getField "updated_at" = some (Json.str s.updated_at) := by
  simp [encode_state, Json.getField, List.lookup]

theorem getField_encode_state_checkpoint (s : State) :
    (encode_state s).getField "checkpoint" = some (encode_checkpoint s.checkpoint) := by
  simp [encode_state, Json.getField, List.lookup]

theorem getField_encode_state_items (s : State) :
    (encode_state s).getField "items" = some (Json.arr (s.items.map encode_item)) := by
  simp [encode_state, Json.getField, List.lookup]

theorem getField_encode_state_conflicts (s : State) :
    (encode_state s).getField "conflicts" =
      some (Json.arr (s.conflicts.map encode_conflict)) := by
  simp [encode_state, Json.getField, List.lookup]

theorem decode_state_encode (s : State) (hwf : s.wfb = true)
    (hfin : s.strengthsFinite = true) :
    decode_state (encode_state s) = some s := by
  simp only [State.wfb, Bool.and_eq_true] at hwf
  obtain ⟨hitems, hckpt⟩ := hwf
  have hfin2 : s.items.all (fun i => i.strength.isFinite) = true := hfin
  have hitem : ∀ i ∈ s.items, decode_item (encode_item i) = some i := by
    intro i hi
    exact decode_item_encode i (List.all_eq_true.mp hitems i hi)
      (List.all_eq_true.mp hfin2 i hi)
  have hobj : (encode_state s).isObj = true := rfl
  simp only [decode_state, hobj, if_true, getField_encode_state_schema_version,
    getField_encode_state_project_id, getField_encode_state_updated_at,
    getField_encode_state_checkpoint, getField_encode_state_items,
    getField_encode_state_conflicts, decode_str, decode_checkpoint_default,
    decode_checkpoint_encode s.checkpoint hckpt, decode_items_default,
    decode_conflicts_default, mapM_map_some encode_item decode_item s.items hitem,
    mapM_map_some encode_conflict decode_conflict s.conflicts
      (fun c _ => decode_conflict_encode c),
    Option.bind_eq_bind, Option.some_bind]

/-- Knowledge item whose strength is a non-finite double (NaN): serde_json
serializes it as null, which f64 deserialization rejects. -/
def nanItem : Item :=
  ⟨"it-nan", .fact, .confirmed, "text", none, Edges.default,
    ⟨none, none, "2024-01-01T00:00:00+00:00"⟩, .nonfinite, false,
    "2024-01-01T00:00:00+00:00", none⟩

/-- Aggregate containing the NaN-strength item. -/
def nanState : State :=
  ⟨"0.1", "proj", "2024-01-02T00:00:00+00:00", ⟨none, none⟩, [nanItem], []⟩

/-- C10 counterexample: write_state followed by read_state is not the
identity on every State value — an aggregate holding an item whose strength
is NaN (or an infinity) serializes that field as null, and read_state then
fails to parse it back, so the round trip loses the value instead of
returning it. -/
theorem C10_counterexample :
    read_state "2024-01-03T00:00:00+00:00" (some (write_state nanState)) = none ∧
    read_state "2024-01-03T00:00:00+00:00" (some (write_state nanState)) ≠
      some nanState := by
  refine ⟨by decide, ?_⟩
  intro h
  rw [show read_state "2024-01-03T00:00:00+00:00" (some (write_state nanState)) = none
    from by decide] at h
  exact Option.noConfusion h

/-- C10 (amended): for every aggregate State value whose numeric fields are
representable (u32 turn, u64 transcript position — guaranteed by the Rust
types) and whose item strengths are finite doubles, write_state followed by
read_state returns a value equal to the original, across all six status
values, empty and non-empty edge lists, and any number of conflicts. -/
theorem C10_state_roundtrip (s : State) (now : DateTimeUtc)
    (hwf : s.wfb = true) (hfin : s.strengthsFinite = true) :
    read_state now (some (write_state s)) = some s :=
  decode_state_encode s hwf hfin

/-- Items covering all six item types and all six status values, with both
empty and non-empty edge lists, optional fields present and absent, and
assorted finite strengths. -/
def coverItems : List Item :=
  [⟨"i1", .decision, .confirmed, "t1", some "r1",
      ⟨["domain:a"], ["library:b"], ["file:c"], ["item:d"], ["item:e"], ["item:f"]⟩,
      ⟨some "sess-1", some 3, "ts1"⟩, .finite 1, true, "ts1", some "ts2"⟩,
    ⟨"i2", .constraint, .grounded, "t2", none, Edges.default,
      ⟨none, none, "ts3"⟩, .finite 0, false, "ts3", none⟩,
    ⟨"i3", .preference, .repeated, "t3", none, Edges.default,
      ⟨none, none, "ts"⟩, .finite (1 / 2), false, "ts", none⟩,
    ⟨"i4", .pattern, .inferred, "t4", none, Edges.default,
      ⟨none, none, "ts"⟩, .finite 2, false, "ts", none⟩,
    ⟨"i5", .fact, .tentative, "t5", none, Edges.default,
      ⟨none, none, "ts"⟩, .finite 3, false, "ts", none⟩,
    ⟨"i6", .definition, .deprecated, "t6", none, Edges.default,
      ⟨none, none, "ts"⟩, .finite 4, false, "ts", none⟩]

/-- Aggregate covering all six statuses, empty and non-empty edge lists, a
populated checkpoint, and two conflicts. -/
def coverState : State :=
  ⟨"0.1", "proj-42", "now0", ⟨some "ts0", some 42⟩, coverItems,
    [⟨["i1", "i2"], "tension", "ts4"⟩, ⟨["i3"], "r", "ts5"⟩]⟩

/-- C10 witness: the amended round-trip theorem applied to the coverage
aggregate. -/
theorem C10_witness :
    coverState.wfb = true ∧ coverState.strengthsFinite = true ∧
    read_state "tnow" (some (write_state coverState)) = some coverState :=
  ⟨by decide, by decide, C10_state_roundtrip coverState "tnow" (by decide) (by decide)⟩
